import Mathlib

/-!
Shallow embedding of the `timetable-builder` repository's data models,
loader and schema validator, together with proofs checking the
natural-language specification against the code.

Sources embedded:
- `src/timetable/models/stage1.py` (Config, Faculty, Subject, ...)
- `src/timetable/models/stage3.py` (TeachingAssignment,
  StudentGroupOverlapConstraints, StatisticsFile, ...)
- `src/timetable/core/schema.py` (SchemaValidator)
- `src/timetable/core/loader.py` (absent from the source tree; `load_json`
  is modelled from the specification and the unit tests that import it)

Python `dict[K, V]` values are embedded as association lists
`List (K × V)` looked up by first match (Python dicts have unique keys,
so first-match lookup agrees with dict lookup on every dict-shaped list).
Python `float` results are embedded as exact rationals `ℚ`.
Python exceptions are embedded as `Except` error values.
-/

/-- Look up a key in an association list (first match), as Python
`dict.get(key, default)` with an explicit default. -/
def assocGetD {α : Type} (m : List (String × α)) (k : String) (d : α) : α :=
  match m.find? (fun kv => kv.1 == k) with
  | some kv => kv.2
  | none => d

/-! ### Stage 3: StudentGroupOverlapConstraints (`models/stage3.py`) -/

/-- Model of `StudentGroupOverlapConstraints` from `models/stage3.py`:
adjacency maps keyed by student-group id. -/
structure StudentGroupOverlapConstraints where
  cannot_overlap_with : List (String × List String)
  can_run_parallel_with : List (String × List String)

/-- Method `get_conflicts_for_group`: `self.cannot_overlap_with.get(group_id, [])`. -/
def StudentGroupOverlapConstraints.get_conflicts_for_group
    (c : StudentGroupOverlapConstraints) (group_id : String) : List String :=
  assocGetD c.cannot_overlap_with group_id []

/-- Method `get_parallel_groups`: `self.can_run_parallel_with.get(group_id, [])`. -/
def StudentGroupOverlapConstraints.get_parallel_groups
    (c : StudentGroupOverlapConstraints) (group_id : String) : List String :=
  assocGetD c.can_run_parallel_with group_id []

/-- Method `can_schedule_together` from `models/stage3.py` lines 177-181:
```
conflicts1 = self.cannot_overlap_with.get(group1, [])
conflicts2 = self.cannot_overlap_with.get(group2, [])
return group2 not in conflicts1 and group1 not in conflicts2
``` -/
def StudentGroupOverlapConstraints.can_schedule_together
    (c : StudentGroupOverlapConstraints) (group1 group2 : String) : Bool :=
  let conflicts1 := assocGetD c.cannot_overlap_with group1 []
  let conflicts2 := assocGetD c.cannot_overlap_with group2 []
  !(conflicts1.contains group2) && !(conflicts2.contains group1)

/-! ### Stage 1: Subject (`models/stage1.py`) -/

/-- Model of `Subject` from `models/stage1.py`: a validated subject record. -/
structure Subject where
  subject_code : String
  short_code : String
  title : String
  credit_pattern : List Int
  total_credits : Int
  department : String
  semester : Int
  is_elective : Bool
  type : String

/-- Raw field values handed to pydantic for `Subject` construction
(after JSON decoding, before any validation). -/
structure SubjectIn where
  subject_code : String
  short_code : String
  title : String
  credit_pattern : List Int
  total_credits : Int
  department : String
  semester : Int
  is_elective : Bool
  type : String

/-- Construction of a `Subject`, embedding pydantic's validation of
`models/stage1.py`:
field constraints (`min_length=1` on the three strings, the
`min_length=3, max_length=3` annotation on `credit_pattern`,
`ge=0` on `total_credits`, `ge=1, le=8` on `semester`, the
`Literal["core", "elective"]` check on `type`), then the
`validate_credit_pattern` field validator (exactly 3 values, all
non-negative), then the `validate_total_credits` model validator
(lines 285-294: `total_credits` must equal `sum(credit_pattern)`).
Any failure raises pydantic `ValidationError`, embedded as `.error`. -/
def Subject.construct (i : SubjectIn) : Except String Subject :=
  if i.subject_code.length < 1 then .error "subjectCode: too short" else
  if i.short_code.length < 1 then .error "shortCode: too short" else
  if i.title.length < 1 then .error "title: too short" else
  if i.credit_pattern.length < 3 then .error "creditPattern: too few items" else
  if i.credit_pattern.length > 3 then .error "creditPattern: too many items" else
  if i.total_credits < 0 then .error "totalCredits: must be >= 0" else
  if i.semester < 1 then .error "semester: must be >= 1" else
  if i.semester > 8 then .error "semester: must be <= 8" else
  if !(i.type == "core" || i.type == "elective") then
    .error "type: must be core or elective" else
  if i.credit_pattern.length != 3 then
    .error "Credit pattern must have exactly 3 values [theory, tutorial, practical]" else
  if i.credit_pattern.any (fun credit => credit < 0) then
    .error "Credits cannot be negative" else
  if i.total_credits != i.credit_pattern.sum then
    .error "Total credits doesn't match sum of credit pattern" else
  .ok ⟨i.subject_code, i.short_code, i.title, i.credit_pattern, i.total_credits,
       i.department, i.semester, i.is_elective, i.type⟩

/-! ### Stage 3: TeachingAssignment (`models/stage3.py`) -/

/-- Model of `AssignmentConstraints` from `models/stage3.py`. -/
structure AssignmentConstraints where
  student_group_conflicts : List String
  faculty_conflicts : List String
  fixed_day : Option String
  fixed_slot : Option String
  must_be_in_room : Option String

/-- Model of `TeachingAssignment` from `models/stage3.py`: the atomic
schedulable unit. -/
structure TeachingAssignment where
  assignment_id : String
  subject_code : String
  short_code : String
  subject_title : String
  component_id : String
  component_type : String
  semester : Int
  faculty_id : String
  faculty_name : String
  student_group_ids : List String
  sections : List String
  session_duration : Int
  sessions_per_week : Int
  requires_room_type : String
  preferred_rooms : List String
  requires_contiguous : Bool
  block_size_slots : Int
  priority : String
  is_elective : Bool
  is_diff_subject : Bool
  constraints : AssignmentConstraints

/-- Property `weekly_hours`, `models/stage3.py` lines 68-71:
`(self.session_duration * self.sessions_per_week) / 60.0`,
embedded as exact rational division. -/
def TeachingAssignment.weekly_hours (a : TeachingAssignment) : ℚ :=
  ((a.session_duration : ℚ) * (a.sessions_per_week : ℚ)) / 60

/-- Property `is_lab_session` from `models/stage3.py`. -/
def TeachingAssignment.is_lab_session (a : TeachingAssignment) : Bool :=
  a.requires_room_type == "lab"

/-! ### Stage 1: Faculty (`models/stage1.py`) -/

/-- Model of `AssignedSubject = Union[str, dict[str, list[str]]]` from
`models/stage1.py` line 217: either a bare subject code or a mapping
from subject code(s) to section lists. -/
inductive AssignedSubject where
  | code (s : String)
  | codeWithSections (m : List (String × List String))

/-- Model of `Faculty` from `models/stage1.py`. -/
structure Faculty where
  faculty_id : String
  name : String
  designation : String
  assigned_subjects : List AssignedSubject
  supporting_subjects : List String

/-- Method `get_all_subject_codes` from `models/stage1.py` lines 235-243:
```
codes = set(self.supporting_subjects)
for subj in self.assigned_subjects:
    if isinstance(subj, str):
        codes.add(subj)
    elif isinstance(subj, dict):
        codes.update(subj.keys())
return codes
``` -/
def Faculty.get_all_subject_codes (f : Faculty) : Finset String :=
  f.assigned_subjects.foldl
    (fun codes subj =>
      match subj with
      | .code s => insert s codes
      | .codeWithSections m => codes ∪ (m.map Prod.fst).toFinset)
    f.supporting_subjects.toFinset

/-! ### Stage 1: Config and Resources (`models/stage1.py`) -/

/-- Model of `TimeSlot` from `models/stage1.py`. The Python field `end` is
embedded as `end_` (`end` is a Lean keyword). -/
structure TimeSlot where
  slot_id : String
  start : String
  end_ : String
  length_minutes : Int

/-- Model of `BreakWindow` from `models/stage1.py`. -/
structure BreakWindow where
  start : String
  end_ : String
  type : String

/-- Model of `DaySlotPattern` from `models/stage1.py`. -/
structure DaySlotPattern where
  mon : List String
  tue : List String
  wed : List String
  thu : List String
  fri : List String
  sat : List String

/-- Model of `CreditToHours` from `models/stage1.py`. -/
structure CreditToHours where
  theory : Int
  tutorial : Int
  practical : Int

/-- Model of `ValidSlotCombinations` from `models/stage1.py`. -/
structure ValidSlotCombinations where
  single : List String
  double : List String
  saturday : List String
  note : Option String

/-- Model of `SessionType` from `models/stage1.py`. -/
structure SessionType where
  duration : Int
  requires_contiguous : Bool

/-- Model of `SessionTypes` from `models/stage1.py`. -/
structure SessionTypes where
  theory : SessionType
  tutorial : SessionType
  practical : SessionType

/-- Model of `ResourceConstraints` from `models/stage1.py`. -/
structure ResourceConstraints where
  max_consecutive_slots_per_faculty : Int
  max_daily_slots_per_student_group : Int
  min_gap_between_same_faculty : Int

/-- Model of `Room` from `models/stage1.py`. -/
structure Room where
  room_id : String
  type : String
  capacity : Int

/-- Model of `Resources` from `models/stage1.py`. -/
structure Resources where
  rooms : List Room

/-- The first-match loop shared by `Resources.get_room` and
`Config.get_slot`:
`for x in xs: if key(x) == wanted: return x` / `return None`. -/
def firstMatch {α : Type} (p : α → Bool) : List α → Option α
  | [] => none
  | x :: rest => if p x then some x else firstMatch p rest

/-- Method `Resources.get_room` from `models/stage1.py` lines 163-168. -/
def Resources.get_room (r : Resources) (room_id : String) : Option Room :=
  firstMatch (fun room => room.room_id == room_id) r.rooms

/-- Method `Resources.get_rooms_by_type` from `models/stage1.py`. -/
def Resources.get_rooms_by_type (r : Resources) (room_type : String) : List Room :=
  r.rooms.filter (fun room => room.type == room_type)

/-- Model of `Config` from `models/stage1.py`. -/
structure Config where
  day_start : String
  day_end : String
  weekdays : List String
  day_slot_pattern : DaySlotPattern
  break_windows : List BreakWindow
  time_slots : List TimeSlot
  theory_session_minutes : Int
  lab_tutorial_session_minutes : Int
  credit_to_hours : CreditToHours
  credit_pattern : Option (List (String × String))
  valid_slot_combinations : ValidSlotCombinations
  session_types : SessionTypes
  resource_constraints : ResourceConstraints
  resources : Resources

/-- Method `Config.get_slot` from `models/stage1.py` lines 197-202. -/
def Config.get_slot (c : Config) (slot_id : String) : Option TimeSlot :=
  firstMatch (fun slot => slot.slot_id == slot_id) c.time_slots

/-! ### Stage 3: statistics models (`models/stage3.py`) -/

/-- Model of `ComponentStats` from `models/stage3.py`. -/
structure ComponentStats where
  count : Int
  sessions : Int
  hours : ℚ

/-- Model of `TypeStats` from `models/stage3.py`. -/
structure TypeStats where
  count : Int
  sessions : Int
  hours : Option ℚ

/-- Model of `PriorityStats` from `models/stage3.py`. -/
structure PriorityStats where
  count : Int
  sessions : Int

/-- Model of `RoomTypeStats` from `models/stage3.py`. -/
structure RoomTypeStats where
  count : Int
  sessions : Int

/-- Model of `FacultyDistributionEntry` from `models/stage3.py`. -/
structure FacultyDistributionEntry where
  faculty_name : String
  assignments : Int
  sessions : Int
  hours : ℚ
  subjects : List String
  subject_count : Int
  components : List (String × Int)

/-- Model of `SubjectCoverageEntry` from `models/stage3.py`. -/
structure SubjectCoverageEntry where
  title : String
  faculty : List String
  faculty_count : Int
  components : List String
  component_count : Int
  total_sessions : Int
  sections : List String

/-- Model of `StudentGroupStatsEntry` from `models/stage3.py`. -/
structure StudentGroupStatsEntry where
  assignments : Int
  sessions : Int
  hours : ℚ
  subjects : List String
  subject_count : Int

/-- Model of `ConstraintStats` from `models/stage3.py`. -/
structure ConstraintStats where
  with_student_conflicts : Int
  with_faculty_conflicts : Int
  with_fixed_timing : Int
  with_room_allocation : Int
  with_room_preferences : Int
  with_contiguous_requirement : Int

/-- Model of `RoomRequirementStats` from `models/stage3.py`. -/
structure RoomRequirementStats where
  unique_rooms_needed : Int
  pre_allocated_rooms : List String
  preferred_rooms_list : List String

/-- Model of `SemesterStats` from `models/stage3.py`. -/
structure SemesterStats where
  semester : Int
  total_assignments : Int
  total_sessions : Int
  total_hours : ℚ
  by_type : List (String × TypeStats)
  by_component : List (String × ComponentStats)
  by_priority : List (String × PriorityStats)
  by_room_type : List (String × RoomTypeStats)
  faculty_distribution : List (String × FacultyDistributionEntry)
  subject_coverage : List (String × SubjectCoverageEntry)
  student_groups : List (String × StudentGroupStatsEntry)
  constraints : ConstraintStats
  conflict_patterns : List (String × Int)
  room_requirements : RoomRequirementStats

/-- Model of `FacultyWorkloadEntry` from `models/stage3.py`; the
`dict[str, Any]` payloads are embedded as opaque strings keyed by
name (their content is never inspected by the code under proof). -/
structure FacultyWorkloadEntry where
  faculty_name : String
  sem1 : List (String × String)
  sem3 : List (String × String)
  total : List (String × String)

/-- Model of `ResourceAnalysis` from `models/stage3.py`. -/
structure ResourceAnalysis where
  lecture_room_sessions : Int
  lab_sessions : Int
  theory_sessions : Int
  practical_sessions : Int
  tutorial_sessions : Int

/-- Model of `CombinedStats` from `models/stage3.py`. -/
structure CombinedStats where
  total_assignments : Int
  total_sessions : Int
  total_hours : ℚ
  faculty_workload : List (String × FacultyWorkloadEntry)
  resource_analysis : ResourceAnalysis

/-- Model of `StatisticsMetadata` from `models/stage3.py`; the `datetime`
field is embedded as its string representation. -/
structure StatisticsMetadata where
  generated_at : String
  generator : String
  version : String

/-- Model of `StatisticsFile` from `models/stage3.py`. -/
structure StatisticsFile where
  metadata : StatisticsMetadata
  semester1 : SemesterStats
  semester3 : SemesterStats
  combined : CombinedStats

/-- Method `get_semester_stats` from `models/stage3.py` lines 370-376:
```
if semester == 1:
    return self.semester1
elif semester == 3:
    return self.semester3
return None
``` -/
def StatisticsFile.get_semester_stats
    (f : StatisticsFile) (semester : Int) : Option SemesterStats :=
  if semester = 1 then some f.semester1
  else if semester = 3 then some f.semester3
  else none

/-! ### JSON values and JSON-Schema validation (`core/schema.py`)

The repository validates raw JSON against JSON-Schema documents with
`jsonschema.Draft7Validator` (`core/schema.py`).  The draft-07
fragment exercised by the repository's schemas is embedded here:
the `type`, `required` and `properties` keywords, evaluated in that
fixed order (a JSON-Schema document is a JSON object; `jsonschema`
iterates its keywords in document order, and the repository's schema
files declare `type` before `required` before `properties`). -/

/-- A JSON value (numbers restricted to integers, which is all the
validated documents of this repository use in the claims at issue). -/
inductive Json where
  | null
  | bool (b : Bool)
  | num (n : Int)
  | str (s : String)
  | arr (elements : List Json)
  | obj (members : List (String × Json))

/-- A draft-07 `type` keyword value. -/
inductive JType where
  | object
  | array
  | string
  | number
  | integer
  | boolean
  | nullType

/-- Draft-07 type matching (`integer` matches integral numbers; all
embedded numbers are integers). -/
def JType.matches : JType → Json → Bool
  | .object, .obj _ => true
  | .array, .arr _ => true
  | .string, .str _ => true
  | .number, .num _ => true
  | .integer, .num _ => true
  | .boolean, .bool _ => true
  | .nullType, .null => true
  | _, _ => false

/-- Draft-07 name of a type keyword value. -/
def JType.typeName : JType → String
  | .object => "object"
  | .array => "array"
  | .string => "string"
  | .number => "number"
  | .integer => "integer"
  | .boolean => "boolean"
  | .nullType => "null"

/-- Message of a `jsonschema` type error (the Python message also
interpolates a repr of the offending instance; the instance is carried
separately here). -/
def typeMessage (t : JType) : String :=
  "is not of type '" ++ t.typeName ++ "'"

/-- Message of a `jsonschema` required-property error:
`"'<name>' is a required property"`. -/
def requiredMessage (p : String) : String :=
  "'" ++ p ++ "' is a required property"

mutual
/-- A JSON-Schema document, restricted to the draft-07 fragment the
repository's schemas use in the claims at issue: an optional `type`
keyword, a `required` list and a `properties` map of subschemas. -/
inductive JSchema where
  | mk (ty : Option JType) (required : List String) (properties : JProps)
/-- The `properties` map of a schema: an ordered association of
property names to subschemas. -/
inductive JProps where
  | nil
  | cons (key : String) (sub : JSchema) (rest : JProps)
end

/-- View of a `properties` map as an association list. -/
def JProps.toList : JProps → List (String × JSchema)
  | .nil => []
  | .cons k sub rest => (k, sub) :: JProps.toList rest

/-- Lookup of a member in a JSON object (Python `dict` access; members
of a parsed JSON object have unique keys). -/
def jmemLookup : List (String × Json) → String → Option Json
  | [], _ => none
  | (k, v) :: rest, key => if k == key then some v else jmemLookup rest key

/-- A `jsonschema.ValidationError` as observed by `validate_data`:
message, absolute data path, absolute schema path and the offending
instance. -/
structure VErr where
  message : String
  absolutePath : List String
  schemaPath : List String
  inst : Json

mutual
/-- Model of `Draft7Validator.iter_errors` on the embedded fragment.
`pre` is the absolute data path and `preS` the absolute schema path of
the subschema being checked; keywords are evaluated in the order
`type`, `required`, `properties` (the order they are declared in the
repository's schema files). `required` and `properties` constrain only
object instances, as in draft-07. -/
def JSchema.iterErrors : JSchema → List String → List String → Json → List VErr
  | .mk ty req props, pre, preS, d =>
    (match ty with
     | some t =>
        if t.matches d then []
        else [⟨typeMessage t, pre, preS ++ ["type"], d⟩]
     | none => []) ++
    (match d with
     | .obj members =>
        (req.filter (fun p => (jmemLookup members p).isNone)).map
          (fun p => ⟨requiredMessage p, pre, preS ++ ["required"], .obj members⟩)
     | _ => []) ++
    (match d with
     | .obj members => JProps.iterErrors props pre preS members
     | _ => [])
/-- Errors contributed by the `properties` keyword: for each declared
property present in the instance, the subschema's errors with the
property key appended to both paths. -/
def JProps.iterErrors : JProps → List String → List String → List (String × Json) → List VErr
  | .nil, _, _, _ => []
  | .cons k sub rest, pre, preS, members =>
    (match jmemLookup members k with
     | some v => JSchema.iterErrors sub (pre ++ [k]) (preS ++ ["properties", k]) v
     | none => []) ++ JProps.iterErrors rest pre preS members
end

mutual
/-- Draft-07 validity of an instance against a schema of the embedded
fragment, defined structurally (independently of error enumeration):
the instance matches the declared type, and, when it is an object, it
has every required property and every declared property present in it
satisfies its subschema. -/
def JSchema.isValidAgainst : JSchema → Json → Bool
  | .mk ty req props, d =>
    (match ty with
     | some t => t.matches d
     | none => true) &&
    (match d with
     | .obj members =>
        req.all (fun p => (jmemLookup members p).isSome) &&
        JProps.allValid props members
     | _ => true)
/-- Validity of an object's members against a `properties` map. -/
def JProps.allValid : JProps → List (String × Json) → Bool
  | .nil, _ => true
  | .cons k sub rest, members =>
    (match jmemLookup members k with
     | some v => JSchema.isValidAgainst sub v
     | none => true) && JProps.allValid rest members
end

/-- Strict lexicographic comparison of character lists, as Python
compares strings (by code point). -/
def charListLt : List Char → List Char → Bool
  | [], [] => false
  | [], _ :: _ => true
  | _ :: _, [] => false
  | c :: cs, d :: ds =>
    if c < d then true
    else if d < c then false
    else charListLt cs ds

/-- Strict comparison of strings by their character lists. -/
def strLt (a b : String) : Bool :=
  charListLt a.data b.data

/-- Lexicographic comparison of data paths, as Python compares the
`deque` keys in `sorted(validator.iter_errors(data), key=lambda e: e.path)`
(all paths in the embedded fragment are property-name strings). -/
def pathLe : List String → List String → Bool
  | [], _ => true
  | _ :: _, [] => false
  | x :: xs, y :: ys =>
    if strLt x y then true
    else if strLt y x then false
    else pathLe xs ys

/-- Order on validation errors used by `validate_data`: by absolute
data path. -/
def vErrLe (e1 e2 : VErr) : Prop :=
  pathLe e1.absolutePath e2.absolutePath = true

instance : DecidableRel vErrLe := fun e1 e2 =>
  inferInstanceAs (Decidable (pathLe e1.absolutePath e2.absolutePath = true))

/-- The error list of `validate_data` before conversion: all schema
errors, stably sorted by the offending data path (Python's `sorted` is
a stable sort; a stable insertion sort computes the same list). -/
def sortedIterErrors (schema : JSchema) (data : Json) : List VErr :=
  List.insertionSort vErrLe (schema.iterErrors [] [] data)

/-- Model of the `SchemaError` class of `core/schema.py` lines 32-59:
message, dotted data path, dotted schema path and the offending value
(`None` for object-valued instances). -/
structure SchemaError where
  message : String
  path : String
  schema_path : String
  value : Option Json

/-- Dotted rendering of a path, as
`".".join(str(p) for p in error.absolute_path)`. -/
def dotted (l : List String) : String :=
  String.intercalate "." l

/-- Conversion of a `jsonschema` error to a `SchemaError`
(`core/schema.py` lines 177-188): dotted paths, and the instance kept
as `value` only when it is not a dict. -/
def VErr.toSchemaError (e : VErr) : SchemaError :=
  ⟨e.message, dotted e.absolutePath, dotted e.schemaPath,
    match e.inst with
    | .obj _ => none
    | v => some v⟩

/-- Core of `SchemaValidator.validate_data` (`core/schema.py` lines
158-190) once the schema is fetched: iterate the draft-07 errors, sort
them by offending data path, convert each to a `SchemaError`. -/
def validateDataCore (schema : JSchema) (data : Json) : List SchemaError :=
  (sortedIterErrors schema data).map VErr.toSchemaError

/-- Judgment: the instance `d`, checked against schema `s`, is missing
the required property `p` at data path `π` (every ancestor of the
missing property exists and is reachable through declared
`properties`). -/
inductive MissingRequired : JSchema → Json → List String → String → Prop where
  | here {ty : Option JType} {req : List String} {props : JProps}
      {members : List (String × Json)} {p : String} :
      p ∈ req → jmemLookup members p = none →
      MissingRequired (.mk ty req props) (.obj members) [] p
  | nested {ty : Option JType} {req : List String} {props : JProps}
      {members : List (String × Json)} {k : String} {sub : JSchema}
      {v : Json} {π : List String} {p : String} :
      (k, sub) ∈ JProps.toList props → jmemLookup members k = some v →
      MissingRequired sub v π p →
      MissingRequired (.mk ty req props) (.obj members) (k :: π) p

/-! ### File system, exceptions, `SchemaValidator` and `load_json` -/

/-- An entry of the modelled file system: a directory, or a file whose
content is abstracted to its JSON-parse result (`none` means the
content is not valid JSON). -/
inductive FsEntry (α : Type) where
  | dir
  | file (parsed : Option α)

/-- A file system: paths mapped to entries (a path absent from the
list does not exist). -/
abbrev Fs (α : Type) := List (String × FsEntry α)

/-- Existence-and-kind lookup of a path. -/
def fsLookup {α : Type} (fs : Fs α) (path : String) : Option (FsEntry α) :=
  match fs.find? (fun kv => kv.1 == path) with
  | some kv => some kv.2
  | none => none

/-- The Python exceptions that escape the embedded functions:
the repository's `DataLoadError` (message and optional filepath), and
the built-in `IsADirectoryError` raised by `open()` on a directory. -/
inductive PyError where
  | dataLoadError (message : String) (filepath : Option String)
  | isADirectoryError (filepath : String)

/-- Predicate: the exception is a `DataLoadError`. -/
def PyError.isDataLoad : PyError → Bool
  | .dataLoadError _ _ => true
  | .isADirectoryError _ => false

/-- Predicate: the computation raised a `DataLoadError`. -/
def Except.raisesDataLoad {α : Type} : Except PyError α → Bool
  | .error e => e.isDataLoad
  | .ok _ => false

/-- The `SCHEMA_MAP` of `core/schema.py` lines 81-93. -/
def SCHEMA_MAP : List (String × String) :=
  [("config", "stage1/config.schema.json"),
   ("faculty", "stage1/faculty.schema.json"),
   ("subject", "stage1/subject.schema.json"),
   ("subjects_full", "stage2/subjects.schema.json"),
   ("faculty_full", "stage2/faculty.schema.json"),
   ("teaching_assignments", "stage3/teachingAssignments.schema.json"),
   ("overlap_constraints", "stage3/overlapConstraints.schema.json"),
   ("statistics", "stage3/statistics.schema.json")]

/-- Model of `SchemaValidator.get_schema` (`core/schema.py` lines
112-156), over a file system rooted at the schemas directory.  The
name is resolved through `SCHEMA_MAP`, falling back to the name itself
as a path (with `.schema.json` appended when missing, checked on the
character list since the Python code uses `str.endswith`).  A missing
schema file and a schema file with invalid JSON raise `DataLoadError`;
a directory at the schema path escapes `open()` as
`IsADirectoryError` (only `json.JSONDecodeError` is caught).  The
per-name cache is omitted: files are immutable during a run, so the
cache is observationally equivalent to re-reading. -/
def SchemaValidator.get_schema (schemasFs : Fs JSchema) (schema_name : String) :
    Except PyError JSchema :=
  let schema_file :=
    match SCHEMA_MAP.find? (fun kv => kv.1 == schema_name) with
    | some kv => kv.2
    | none =>
      if (".schema.json".data).isSuffixOf schema_name.data then schema_name
      else schema_name ++ ".schema.json"
  match fsLookup schemasFs schema_file with
  | none =>
    .error (.dataLoadError ("Schema file not found: " ++ schema_file)
      (some schema_file))
  | some .dir => .error (.isADirectoryError schema_file)
  | some (.file none) =>
    .error (.dataLoadError ("Invalid JSON in schema file: " ++ schema_file)
      (some schema_file))
  | some (.file (some schema)) => .ok schema

/-- Model of `SchemaValidator.validate_data` (`core/schema.py` lines
158-190): fetch the named schema (exceptions propagate), then return
the sorted, converted error list. -/
def SchemaValidator.validate_data (schemasFs : Fs JSchema) (data : Json)
    (schema_name : String) : Except PyError (List SchemaError) :=
  match SchemaValidator.get_schema schemasFs schema_name with
  | .error e => .error e
  | .ok schema => .ok (validateDataCore schema data)

/-- Model of `SchemaValidator.validate_file` (`core/schema.py` lines
192-227): a missing path raises `DataLoadError` ("File not found"),
then the file is opened and parsed — `open()` on a directory raises
`IsADirectoryError` (the code checks `exists()` but not `is_file()`,
and catches only `json.JSONDecodeError`), invalid JSON raises
`DataLoadError` ("Invalid JSON syntax"), and a parsed document is
passed to `validate_data`, whose error list is returned, not raised. -/
def SchemaValidator.validate_file (schemasFs : Fs JSchema) (dataFs : Fs Json)
    (filepath schema_name : String) : Except PyError (List SchemaError) :=
  match fsLookup dataFs filepath with
  | none =>
    .error (.dataLoadError ("File not found: " ++ filepath) (some filepath))
  | some .dir => .error (.isADirectoryError filepath)
  | some (.file none) =>
    .error (.dataLoadError ("Invalid JSON syntax: " ++ filepath) (some filepath))
  | some (.file (some data)) =>
    SchemaValidator.validate_data schemasFs data schema_name

/-- Model of `SchemaValidator.is_valid` (`core/schema.py` lines
229-245): `len(validate_data(..)) == 0`; exceptions propagate. -/
def SchemaValidator.is_valid (schemasFs : Fs JSchema) (data : Json)
    (schema_name : String) : Except PyError Bool :=
  match SchemaValidator.validate_data schemasFs data schema_name with
  | .error e => .error e
  | .ok errors => .ok errors.isEmpty

/-- Model of `SchemaValidator.is_file_valid` (`core/schema.py` lines
247-266): `validate_file` wrapped in `try/except DataLoadError`, which
returns `False`; any other exception propagates. -/
def SchemaValidator.is_file_valid (schemasFs : Fs JSchema) (dataFs : Fs Json)
    (filepath schema_name : String) : Except PyError Bool :=
  match SchemaValidator.validate_file schemasFs dataFs filepath schema_name with
  | .ok errors => .ok errors.isEmpty
  | .error (.dataLoadError _ _) => .ok false
  | .error e => .error e

/-- Modelled from the spec: the loader module `timetable/core/loader.py`
is absent from the source tree (only its unit tests and the re-export
in `timetable/core/__init__.py` are present).  `load_json(path)` is
modelled from spec §4.1 and §8: a missing path raises `DataLoadError`
whose message contains "not found"; a path that is not a regular file
raises `DataLoadError` whose message contains "not a file"; a file
whose content is not valid JSON raises `DataLoadError` whose message
contains "json"; otherwise the parsed content is returned.  File
contents are abstracted to their JSON-parse result, as in the rest of
the file-system model. -/
def load_json (dataFs : Fs Json) (path : String) : Except PyError Json :=
  match fsLookup dataFs path with
  | none =>
    .error (.dataLoadError ("File not found: " ++ path) (some path))
  | some .dir =>
    .error (.dataLoadError ("Path is not a file: " ++ path) (some path))
  | some (.file none) =>
    .error (.dataLoadError ("Invalid json in file: " ++ path) (some path))
  | some (.file (some j)) => .ok j

/-- Containment of a substring, as Python's `in` on strings. -/
def strContains (s sub : String) : Prop :=
  sub.data <:+: s.data

instance (s sub : String) : Decidable (strContains s sub) :=
  inferInstanceAs (Decidable (sub.data <:+: s.data))

/-! ### Concrete fixtures used by witnesses and counterexamples -/

/-- A concrete schema: an object with required property `config`. -/
def sampleSchema : JSchema := .mk (some .object) ["config"] .nil

/-- A schemas directory holding `sampleSchema` under the path that
`SCHEMA_MAP` assigns to the name `config`. -/
def sampleSchemasFs : Fs JSchema :=
  [("stage1/config.schema.json", .file (some sampleSchema))]

/-- A document satisfying `sampleSchema`. -/
def sampleGoodData : Json := .obj [("config", .obj [])]

/-- A document violating `sampleSchema`: the required property
`config` is missing. -/
def sampleBadData : Json := .obj [("n", .num 1)]

/-- A data directory with a well-formed file, a malformed file and a
directory entry. -/
def sampleDataFs : Fs Json :=
  [("stage_1/config.json", .file (some sampleGoodData)),
   ("bad.json", .file none),
   ("adir", .dir)]

/-- Counterexample schema: an object with a string property `a` and an
object property `b` that requires `x`. -/
def cexSchema : JSchema :=
  .mk (some .object) []
    (.cons "a" (.mk (some .string) [] .nil)
      (.cons "b" (.mk (some .object) ["x"] .nil) .nil))

/-- Counterexample document: `a` has the wrong type and `b` is missing
its required property `x`. -/
def cexData : Json := .obj [("a", .num 3), ("b", .obj [])]

/-- A data directory holding only a directory entry at `d`. -/
def cexDirFs : Fs Json := [("d", .dir)]

/-- A small concrete `SemesterStats` value, used to evaluate
`get_semester_stats` at concrete inputs. -/
def sampleSemesterStats (sem : Int) : SemesterStats :=
  ⟨sem, 0, 0, 0, [], [], [], [], [], [], [], ⟨0, 0, 0, 0, 0, 0⟩, [],
    ⟨0, [], []⟩⟩

/-- A small concrete `StatisticsFile` value, used to evaluate
`get_semester_stats` at concrete inputs. -/
def sampleStatisticsFile : StatisticsFile :=
  ⟨⟨"2024-01-01T00:00:00", "gen", "1.0"⟩,
    sampleSemesterStats 1, sampleSemesterStats 3,
    ⟨0, 0, 0, [], ⟨0, 0, 0, 0, 0⟩⟩⟩

/-! ### Theorems for C1, C2, C3 -/

/-- C1: `can_schedule_together(a, b)` returns `False` iff `b` appears in
`cannot_overlap_with[a]` or `a` appears in `cannot_overlap_with[b]`
(a missing group id counts as an empty conflict list), and the
`can_run_parallel_with` map has no effect on the result. -/
theorem can_schedule_together_spec
    (c : StudentGroupOverlapConstraints) (a b : String) :
    (c.can_schedule_together a b = false ↔
      b ∈ assocGetD c.cannot_overlap_with a [] ∨
      a ∈ assocGetD c.cannot_overlap_with b []) ∧
    (∀ pr : List (String × List String),
      StudentGroupOverlapConstraints.can_schedule_together
        ⟨c.cannot_overlap_with, pr⟩ a b = c.can_schedule_together a b) := by
  constructor
  · unfold StudentGroupOverlapConstraints.can_schedule_together
    rw [Bool.and_eq_false_iff]
    constructor
    · rintro (h | h) <;> rw [Bool.not_eq_false'] at h
      · exact Or.inl (List.elem_iff.mp h)
      · exact Or.inr (List.elem_iff.mp h)
    · rintro (h | h)
      · exact Or.inl (by rw [Bool.not_eq_false']; exact List.elem_iff.mpr h)
      · exact Or.inr (by rw [Bool.not_eq_false']; exact List.elem_iff.mpr h)
  · intro pr
    rfl

/-- Helper: a successful `Subject.construct` forces the total-credits
invariant, both on the produced record and on the raw input. -/
theorem subject_construct_ok_sum (i : SubjectIn) (s : Subject)
    (hs : Subject.construct i = .ok s) :
    s.total_credits = s.credit_pattern.sum ∧
    i.total_credits = i.credit_pattern.sum := by
  unfold Subject.construct at hs
  by_cases h1 : i.subject_code.length < 1
  · rw [if_pos h1] at hs; exact Except.noConfusion hs
  rw [if_neg h1] at hs
  by_cases h2 : i.short_code.length < 1
  · rw [if_pos h2] at hs; exact Except.noConfusion hs
  rw [if_neg h2] at hs
  by_cases h3 : i.title.length < 1
  · rw [if_pos h3] at hs; exact Except.noConfusion hs
  rw [if_neg h3] at hs
  by_cases h4 : i.credit_pattern.length < 3
  · rw [if_pos h4] at hs; exact Except.noConfusion hs
  rw [if_neg h4] at hs
  by_cases h5 : i.credit_pattern.length > 3
  · rw [if_pos h5] at hs; exact Except.noConfusion hs
  rw [if_neg h5] at hs
  by_cases h6 : i.total_credits < 0
  · rw [if_pos h6] at hs; exact Except.noConfusion hs
  rw [if_neg h6] at hs
  by_cases h7 : i.semester < 1
  · rw [if_pos h7] at hs; exact Except.noConfusion hs
  rw [if_neg h7] at hs
  by_cases h8 : i.semester > 8
  · rw [if_pos h8] at hs; exact Except.noConfusion hs
  rw [if_neg h8] at hs
  by_cases h9 : (!(i.type == "core" || i.type == "elective")) = true
  · rw [if_pos h9] at hs; exact Except.noConfusion hs
  rw [if_neg h9] at hs
  by_cases h10 : (i.credit_pattern.length != 3) = true
  · rw [if_pos h10] at hs; exact Except.noConfusion hs
  rw [if_neg h10] at hs
  by_cases h11 : (i.credit_pattern.any fun credit => credit < 0) = true
  · rw [if_pos h11] at hs; exact Except.noConfusion hs
  rw [if_neg h11] at hs
  by_cases h12 : (i.total_credits != i.credit_pattern.sum) = true
  · rw [if_pos h12] at hs; exact Except.noConfusion hs
  rw [if_neg h12] at hs
  cases hs
  exact ⟨by simpa using h12, by simpa using h12⟩

/-- C2: every successfully constructed `Subject` has
`total_credits = sum(credit_pattern)`, and construction with a
mismatching `total_credits` always fails. -/
theorem subject_total_credits_spec (i : SubjectIn) :
    (∀ s : Subject, Subject.construct i = .ok s →
      s.total_credits = s.credit_pattern.sum) ∧
    (i.total_credits ≠ i.credit_pattern.sum →
      ∃ m, Subject.construct i = .error m) := by
  constructor
  · intro s hs
    exact (subject_construct_ok_sum i s hs).1
  · intro hmis
    cases hc : Subject.construct i with
    | error m => exact ⟨m, rfl⟩
    | ok s => exact absurd (subject_construct_ok_sum i s hc).2 hmis

/-- Witness for C2 at concrete inputs: a mismatching record fails. -/
theorem subject_total_credits_spec_witness :
    ((5 : Int) ≠ [1, 1, 1].sum) ∧
    (∃ m, Subject.construct
      ⟨"CS101", "CS", "Test", [1, 1, 1], 5, "MCA", 1, false, "core"⟩ =
        .error m) := by
  refine ⟨by decide, ?_⟩
  exact (subject_total_credits_spec
    ⟨"CS101", "CS", "Test", [1, 1, 1], 5, "MCA", 1, false, "core"⟩).2 (by decide)

/-- C3: `weekly_hours` equals
`session_duration * sessions_per_week / 60` as exact (unrounded)
division: multiplying back by 60 recovers the product exactly. -/
theorem weekly_hours_spec (a : TeachingAssignment) :
    a.weekly_hours = ((a.session_duration : ℚ) * (a.sessions_per_week : ℚ)) / 60 ∧
    a.weekly_hours * 60 = (a.session_duration : ℚ) * (a.sessions_per_week : ℚ) := by
  refine ⟨rfl, ?_⟩
  unfold TeachingAssignment.weekly_hours
  field_simp

/-! ### Theorems for C8, C9, C10 -/

/-- Helper: membership in the fold underlying `get_all_subject_codes`. -/
theorem mem_subject_codes_foldl
    (l : List AssignedSubject) (acc : Finset String) (x : String) :
    (x ∈ l.foldl (fun codes subj =>
        match subj with
        | .code s => insert s codes
        | .codeWithSections m => codes ∪ (m.map Prod.fst).toFinset) acc) ↔
      x ∈ acc ∨ AssignedSubject.code x ∈ l ∨
        ∃ m, AssignedSubject.codeWithSections m ∈ l ∧ x ∈ m.map Prod.fst := by
  induction l generalizing acc with
  | nil => simp
  | cons a l ih =>
    cases a with
    | code s =>
      rw [List.foldl_cons, ih]
      simp only [Finset.mem_insert, List.mem_cons]
      constructor
      · rintro ((h | h) | h | h)
        · exact Or.inr (Or.inl (Or.inl (by rw [h])))
        · exact Or.inl h
        · exact Or.inr (Or.inl (Or.inr h))
        · exact Or.inr (Or.inr (by
            obtain ⟨m, hm, hx⟩ := h
            exact ⟨m, Or.inr hm, hx⟩))
      · rintro (h | h | h)
        · exact Or.inl (Or.inr h)
        · rcases h with h | h
          · cases h; exact Or.inl (Or.inl rfl)
          · exact Or.inr (Or.inl h)
        · obtain ⟨m, hm, hx⟩ := h
          rcases hm with hm | hm
          · exact absurd hm (by simp)
          · exact Or.inr (Or.inr ⟨m, hm, hx⟩)
    | codeWithSections m0 =>
      rw [List.foldl_cons, ih]
      simp only [Finset.mem_union, List.mem_cons, List.mem_toFinset]
      constructor
      · rintro ((h | h) | h | h)
        · exact Or.inl h
        · exact Or.inr (Or.inr ⟨m0, Or.inl rfl, h⟩)
        · exact Or.inr (Or.inl (Or.inr h))
        · obtain ⟨m, hm, hx⟩ := h
          exact Or.inr (Or.inr ⟨m, Or.inr hm, hx⟩)
      · rintro (h | h | h)
        · exact Or.inl (Or.inl h)
        · rcases h with h | h
          · exact absurd h (by simp)
          · exact Or.inr (Or.inl h)
        · obtain ⟨m, hm, hx⟩ := h
          rcases hm with hm | hm
          · cases hm; exact Or.inl (Or.inr hx)
          · exact Or.inr (Or.inr ⟨m, hm, hx⟩)

/-- C8: `get_all_subject_codes` returns the union of the supporting
subject codes, the bare-string assigned entries, and the keys of the
mapping-shaped assigned entries; on the faculty record with
`assignedSubjects = ["CS101", {"CS301": ["A","B"]}]` and
`supportingSubjects = ["CS102"]` it is exactly
`{"CS101", "CS301", "CS102"}`. -/
theorem get_all_subject_codes_spec :
    (∀ (f : Faculty) (x : String),
      x ∈ f.get_all_subject_codes ↔
        x ∈ f.supporting_subjects ∨
        AssignedSubject.code x ∈ f.assigned_subjects ∨
        ∃ m, AssignedSubject.codeWithSections m ∈ f.assigned_subjects ∧
          x ∈ m.map Prod.fst) ∧
    Faculty.get_all_subject_codes
        ⟨"F1", "Name", "Professor",
          [.code "CS101", .codeWithSections [("CS301", ["A", "B"])]],
          ["CS102"]⟩ =
      {"CS101", "CS301", "CS102"} := by
  constructor
  · intro f x
    unfold Faculty.get_all_subject_codes
    rw [mem_subject_codes_foldl]
    simp [List.mem_toFinset]
  · decide

/-- C9: `get_semester_stats` returns the semester-1 statistics for 1,
the semester-3 statistics for 3, and `None` for every other integer
(including the otherwise-valid semesters 2 and 4-8); it never raises. -/
theorem get_semester_stats_spec (f : StatisticsFile) :
    f.get_semester_stats 1 = some f.semester1 ∧
    f.get_semester_stats 3 = some f.semester3 ∧
    ∀ s : Int, s ≠ 1 → s ≠ 3 → f.get_semester_stats s = none := by
  refine ⟨rfl, rfl, ?_⟩
  intro s h1 h3
  unfold StatisticsFile.get_semester_stats
  rw [if_neg h1, if_neg h3]

/-- Witness for C9 at a concrete statistics file and semester 2. -/
theorem get_semester_stats_spec_witness :
    sampleStatisticsFile.get_semester_stats 1 =
        some sampleStatisticsFile.semester1 ∧
    sampleStatisticsFile.get_semester_stats 3 =
        some sampleStatisticsFile.semester3 ∧
    ((2 : Int) ≠ 1 ∧ (2 : Int) ≠ 3 ∧
      sampleStatisticsFile.get_semester_stats 2 = none) := by
  obtain ⟨h1, h3, hgen⟩ := get_semester_stats_spec sampleStatisticsFile
  exact ⟨h1, h3, by decide, by decide, hgen 2 (by decide) (by decide)⟩

/-- Helper: the first-match loop returns the head of the filtered list. -/
theorem firstMatch_eq_filter_head {α : Type} (p : α → Bool) (l : List α) :
    firstMatch p l = (l.filter p).head? := by
  induction l with
  | nil => rfl
  | cons x rest ih =>
    by_cases h : p x
    · simp [firstMatch, List.filter_cons, h]
    · simp [firstMatch, List.filter_cons, h, ih]

/-- C10: `Config.get_slot` and `Resources.get_room` are total lookups:
each returns the first element with the requested id in list order,
and `None` (never an exception) when no element matches. -/
theorem get_slot_get_room_spec
    (c : Config) (r : Resources) (slot_id room_id : String) :
    c.get_slot slot_id =
        (c.time_slots.filter (fun t => t.slot_id == slot_id)).head? ∧
    r.get_room room_id =
        (r.rooms.filter (fun room => room.room_id == room_id)).head? :=
  ⟨firstMatch_eq_filter_head _ _, firstMatch_eq_filter_head _ _⟩

/-! ### Theorems for C4, C5, C6, C7 -/

/-- Helper: `charListLt` is irreflexive. -/
theorem charListLt_irrefl : ∀ a : List Char, charListLt a a = false
  | [] => rfl
  | c :: cs => by simp [charListLt, lt_irrefl, charListLt_irrefl cs]

/-- Helper: two lists neither of which is below the other are equal. -/
theorem charListLt_connex : ∀ a b : List Char,
    charListLt a b = false → charListLt b a = false → a = b
  | [], [], _, _ => rfl
  | [], _ :: _, h, _ => by simp [charListLt] at h
  | _ :: _, [], _, h => by simp [charListLt] at h
  | c :: cs, d :: ds, h1, h2 => by
    simp only [charListLt] at h1 h2
    by_cases hcd : c < d
    · rw [if_pos hcd] at h1
      exact absurd h1 (by simp)
    · by_cases hdc : d < c
      · rw [if_pos hdc] at h2
        exact absurd h2 (by simp)
      · rw [if_neg hcd, if_neg hdc] at h1
        rw [if_neg hdc, if_neg hcd] at h2
        have hc : c = d := le_antisymm (not_lt.mp hdc) (not_lt.mp hcd)
        have ht : cs = ds := charListLt_connex cs ds h1 h2
        rw [hc, ht]

/-- Helper: `charListLt` is transitive. -/
theorem charListLt_trans : ∀ a b c : List Char,
    charListLt a b = true → charListLt b c = true → charListLt a c = true
  | [], [], _, h1, _ => by simp [charListLt] at h1
  | [], _ :: _, [], _, h2 => by simp [charListLt] at h2
  | [], _ :: _, _ :: _, _, _ => rfl
  | _ :: _, [], _, h1, _ => by simp [charListLt] at h1
  | _ :: _, _ :: _, [], _, h2 => by simp [charListLt] at h2
  | a :: as, b :: bs, c :: cs, h1, h2 => by
    simp only [charListLt] at h1 h2 ⊢
    by_cases hab : a < b
    · by_cases hbc : b < c
      · rw [if_pos (lt_trans hab hbc)]
      · by_cases hcb : c < b
        · rw [if_neg hbc, if_pos hcb] at h2
          exact absurd h2 (by simp)
        · have hb : b = c := le_antisymm (not_lt.mp hcb) (not_lt.mp hbc)
          subst hb
          rw [if_pos hab]
    · by_cases hba : b < a
      · rw [if_neg hab, if_pos hba] at h1
        exact absurd h1 (by simp)
      · have ha : a = b := le_antisymm (not_lt.mp hba) (not_lt.mp hab)
        subst ha
        rw [if_neg hab, if_neg hab] at h1
        by_cases hac : a < c
        · rw [if_pos hac]
        · by_cases hca : c < a
          · rw [if_neg hac, if_pos hca] at h2
            exact absurd h2 (by simp)
          · rw [if_neg hac, if_neg hca] at h2
            rw [if_neg hac, if_neg hca]
            exact charListLt_trans as bs cs h1 h2

/-- Helper: two strings neither of which is below the other are
equal. -/
theorem strLt_connex (x y : String)
    (h1 : strLt x y = false) (h2 : strLt y x = false) : x = y := by
  cases x with
  | mk dx =>
    cases y with
    | mk dy =>
      have hd : dx = dy := charListLt_connex dx dy h1 h2
      rw [hd]

/-- Helper: `strLt` is transitive. -/
theorem strLt_trans (x y z : String)
    (h1 : strLt x y = true) (h2 : strLt y z = true) : strLt x z = true :=
  charListLt_trans x.data y.data z.data h1 h2

/-- Helper: `pathLe` is total. -/
theorem pathLe_total : ∀ a b : List String, pathLe a b = true ∨ pathLe b a = true
  | [], _ => Or.inl rfl
  | _ :: _, [] => Or.inr rfl
  | x :: xs, y :: ys => by
    by_cases hxy : strLt x y = true
    · left; simp [pathLe, hxy]
    · by_cases hyx : strLt y x = true
      · right; simp [pathLe, hyx]
      · have hx : x = y := strLt_connex x y
          (Bool.eq_false_iff.mpr hxy) (Bool.eq_false_iff.mpr hyx)
        subst hx
        rcases pathLe_total xs ys with ih | ih
        · left; simp only [pathLe]; rw [if_neg hxy, if_neg hxy]; exact ih
        · right; simp only [pathLe]; rw [if_neg hxy, if_neg hxy]; exact ih

/-- Helper: `pathLe` is transitive. -/
theorem pathLe_trans : ∀ a b c : List String,
    pathLe a b = true → pathLe b c = true → pathLe a c = true
  | [], _, _, _, _ => rfl
  | _ :: _, [], _, h, _ => by simp [pathLe] at h
  | _ :: _, _ :: _, [], _, h => by simp [pathLe] at h
  | x :: xs, y :: ys, z :: zs, h1, h2 => by
    simp only [pathLe] at h1 h2 ⊢
    by_cases hxy : strLt x y = true
    · by_cases hyz : strLt y z = true
      · rw [if_pos (strLt_trans x y z hxy hyz)]
      · by_cases hzy : strLt z y = true
        · rw [if_neg hyz, if_pos hzy] at h2
          exact absurd h2 (by simp)
        · have hy : y = z := strLt_connex y z
            (Bool.eq_false_iff.mpr hyz) (Bool.eq_false_iff.mpr hzy)
          subst hy
          rw [if_pos hxy]
    · by_cases hyx : strLt y x = true
      · rw [if_neg hxy, if_pos hyx] at h1
        exact absurd h1 (by simp)
      · have hx : x = y := strLt_connex x y
          (Bool.eq_false_iff.mpr hxy) (Bool.eq_false_iff.mpr hyx)
        subst hx
        rw [if_neg hxy, if_neg hxy] at h1
        by_cases hxz : strLt x z = true
        · rw [if_pos hxz]
        · by_cases hzx : strLt z x = true
          · rw [if_neg hxz, if_pos hzx] at h2
            exact absurd h2 (by simp)
          · rw [if_neg hxz, if_neg hzx] at h2
            rw [if_neg hxz, if_neg hzx]
            exact pathLe_trans xs ys zs h1 h2

instance : IsTotal VErr vErrLe :=
  ⟨fun a b => pathLe_total a.absolutePath b.absolutePath⟩

instance : IsTrans VErr vErrLe :=
  ⟨fun a b c => pathLe_trans a.absolutePath b.absolutePath c.absolutePath⟩

/-- Helper: a passing `type` keyword contributes no error. -/
theorem type_seg_eq_nil (ty : Option JType) (pre preS : List String) (d : Json)
    (h1 : (match ty with
      | some t => JType.matches t d
      | none => true) = true) :
    (match ty with
      | some t =>
        if JType.matches t d then ([] : List VErr)
        else [⟨typeMessage t, pre, preS ++ ["type"], d⟩]
      | none => []) = [] := by
  cases ty with
  | none => rfl
  | some t => simp_all

mutual
/-- Helper: a valid instance produces no draft-07 errors. -/
theorem JSchema.iterErrors_eq_nil_of_valid :
    ∀ (s : JSchema) (pre preS : List String) (d : Json),
      s.isValidAgainst d = true → s.iterErrors pre preS d = []
  | .mk ty req props, pre, preS, d, h => by
    simp only [JSchema.isValidAgainst] at h
    rw [Bool.and_eq_true] at h
    obtain ⟨h1, h2⟩ := h
    simp only [JSchema.iterErrors]
    rw [type_seg_eq_nil ty pre preS d h1, List.nil_append]
    cases d with
    | obj members =>
      simp only [Bool.and_eq_true, List.all_eq_true] at h2
      obtain ⟨hreq, hprops⟩ := h2
      show (List.filter (fun p => (jmemLookup members p).isNone) req).map _ ++
        props.iterErrors pre preS members = []
      rw [List.filter_eq_nil_iff.mpr (fun p hp hn =>
        Option.isSome_iff_ne_none.mp (hreq p hp)
          (Option.isNone_iff_eq_none.mp hn))]
      rw [JProps.iterErrors_eq_nil_of_allValid props pre preS members hprops]
      rfl
    | null => rfl
    | bool b => rfl
    | num n => rfl
    | str s => rfl
    | arr elements => rfl
/-- Helper: members valid against a `properties` map produce no
errors. -/
theorem JProps.iterErrors_eq_nil_of_allValid :
    ∀ (ps : JProps) (pre preS : List String) (members : List (String × Json)),
      JProps.allValid ps members = true →
      JProps.iterErrors ps pre preS members = []
  | .nil, _, _, _, _ => rfl
  | .cons k sub rest, pre, preS, members, h => by
    rw [JProps.allValid, Bool.and_eq_true] at h
    obtain ⟨h1, h2⟩ := h
    rw [JProps.iterErrors]
    rw [JProps.iterErrors_eq_nil_of_allValid rest pre preS members h2]
    cases hl : jmemLookup members k with
    | none => simp
    | some v =>
      rw [hl] at h1
      have h1v : sub.isValidAgainst v = true := h1
      show sub.iterErrors (pre ++ [k]) (preS ++ ["properties", k]) v ++ [] = []
      rw [JSchema.iterErrors_eq_nil_of_valid sub (pre ++ [k])
        (preS ++ ["properties", k]) v h1v]
      rfl
end

/-- Helper: errors of a declared property's subschema are among the
errors of the `properties` keyword. -/
theorem JProps.mem_iterErrors_of_mem :
    ∀ (ps : JProps) (k : String) (sub : JSchema),
      (k, sub) ∈ ps.toList →
      ∀ (members : List (String × Json)) (v : Json) (pre preS : List String)
        (e : VErr),
        jmemLookup members k = some v →
        e ∈ sub.iterErrors (pre ++ [k]) (preS ++ ["properties", k]) v →
        e ∈ JProps.iterErrors ps pre preS members
  | .nil, k, sub, h => by simp [JProps.toList] at h
  | .cons k' sub' rest, k, sub, h => by
    intro members v pre preS e hl he
    rw [JProps.toList] at h
    rw [JProps.iterErrors]
    rcases List.mem_cons.mp h with heq | hmem
    · obtain ⟨hk, hsub⟩ := Prod.mk.injEq .. ▸ heq
      subst hk
      subst hsub
      rw [hl]
      exact List.mem_append_left _ he
    · exact List.mem_append_right _
        (JProps.mem_iterErrors_of_mem rest k sub hmem members v pre preS e hl he)

/-- Helper: a missing required property always yields a corresponding
error among the iterated draft-07 errors. -/
theorem exists_required_error {s : JSchema} {d : Json} {π : List String}
    {p : String} (h : MissingRequired s d π p) :
    ∀ pre preS : List String,
      ∃ e : VErr, e ∈ s.iterErrors pre preS d ∧
        e.message = requiredMessage p ∧ e.absolutePath = pre ++ π := by
  induction h with
  | @here ty req props members q hq hl =>
    intro pre preS
    refine ⟨⟨requiredMessage q, pre, preS ++ ["required"], .obj members⟩,
      ?_, rfl, by simp⟩
    show _ ∈ (match ty with
      | some t =>
        if JType.matches t (Json.obj members) then ([] : List VErr)
        else [⟨typeMessage t, pre, preS ++ ["type"], Json.obj members⟩]
      | none => []) ++
      (req.filter (fun r => (jmemLookup members r).isNone)).map
        (fun r => ⟨requiredMessage r, pre, preS ++ ["required"], .obj members⟩) ++
      JProps.iterErrors props pre preS members
    apply List.mem_append_left
    apply List.mem_append_right
    apply List.mem_map_of_mem
    rw [List.mem_filter]
    exact ⟨hq, by rw [hl]; rfl⟩
  | @nested ty req props members k sub v π' q hmem hl _ ih =>
    intro pre preS
    obtain ⟨e, he, hmsg, hpath⟩ := ih (pre ++ [k]) (preS ++ ["properties", k])
    refine ⟨e, ?_, hmsg, by rw [hpath, List.append_assoc]; rfl⟩
    show e ∈ (match ty with
      | some t =>
        if JType.matches t (Json.obj members) then ([] : List VErr)
        else [⟨typeMessage t, pre, preS ++ ["type"], Json.obj members⟩]
      | none => []) ++
      (req.filter (fun r => (jmemLookup members r).isNone)).map
        (fun r => ⟨requiredMessage r, pre, preS ++ ["required"], .obj members⟩) ++
      JProps.iterErrors props pre preS members
    apply List.mem_append_right
    exact JProps.mem_iterErrors_of_mem props k sub hmem members v pre preS e hl he

/-- C4 (amended): `validate_data` returns an empty list for every
document valid against the named schema; its output is sorted by
offending data path; for a document missing a schema-required property
the output is non-empty and contains an error whose path and message
identify the missing property (the first error need not, when another
violation occurs at an earlier data path). -/
theorem validate_data_spec (sfs : Fs JSchema) (schema_name : String)
    (schema : JSchema) (data : Json)
    (hschema : SchemaValidator.get_schema sfs schema_name = .ok schema) :
    SchemaValidator.validate_data sfs data schema_name =
        .ok (validateDataCore schema data) ∧
    (schema.isValidAgainst data = true → validateDataCore schema data = []) ∧
    List.Sorted vErrLe (sortedIterErrors schema data) ∧
    (∀ π p, MissingRequired schema data π p →
      validateDataCore schema data ≠ [] ∧
      ∃ se, se ∈ validateDataCore schema data ∧
        se.path = dotted π ∧ se.message = requiredMessage p) := by
  refine ⟨?_, ?_, ?_, ?_⟩
  · unfold SchemaValidator.validate_data
    rw [hschema]
  · intro hv
    unfold validateDataCore sortedIterErrors
    rw [JSchema.iterErrors_eq_nil_of_valid schema [] [] data hv]
    rfl
  · exact List.sorted_insertionSort vErrLe _
  · intro pth p hmiss
    obtain ⟨e, he, hmsg, hpath⟩ := exists_required_error hmiss [] []
    have hes : e ∈ sortedIterErrors schema data := by
      unfold sortedIterErrors
      exact ((List.perm_insertionSort vErrLe _).mem_iff).mpr he
    have hse : e.toSchemaError ∈ validateDataCore schema data :=
      List.mem_map_of_mem _ hes
    refine ⟨List.ne_nil_of_mem hse, e.toSchemaError, hse, ?_, hmsg⟩
    show dotted e.absolutePath = dotted pth
    rw [hpath]
    rfl

/-- Witness for C4 at the concrete `sampleSchema`: a valid document
yields no errors, and a document missing the required property
`config` yields an error identifying it. -/
theorem validate_data_spec_witness :
    SchemaValidator.get_schema sampleSchemasFs "config" = .ok sampleSchema ∧
    (sampleSchema.isValidAgainst sampleGoodData = true ∧
      validateDataCore sampleSchema sampleGoodData = []) ∧
    (MissingRequired sampleSchema sampleBadData [] "config" ∧
      validateDataCore sampleSchema sampleBadData ≠ [] ∧
      ∃ se, se ∈ validateDataCore sampleSchema sampleBadData ∧
        se.path = dotted [] ∧ se.message = requiredMessage "config") := by
  have hg : SchemaValidator.get_schema sampleSchemasFs "config" =
      .ok sampleSchema := by rfl
  have hmiss : MissingRequired sampleSchema sampleBadData [] "config" :=
    MissingRequired.here (List.Mem.head _) (by rfl)
  have hbad :=
    (validate_data_spec sampleSchemasFs "config" sampleSchema sampleBadData
      hg).2.2.2 [] "config" hmiss
  exact ⟨hg,
    ⟨by decide,
      (validate_data_spec sampleSchemasFs "config" sampleSchema sampleGoodData
        hg).2.1 (by decide)⟩,
    ⟨hmiss, hbad.1, hbad.2⟩⟩

/-- Counterexample to C4 as stated: `cexData` is missing the required
property `x` (at data path `b`), yet the first returned error is the
type violation at the earlier path `a`, whose path and message do not
identify the missing property. -/
theorem validate_data_first_error_cex :
    MissingRequired cexSchema cexData ["b"] "x" ∧
    (validateDataCore cexSchema cexData).head?.map SchemaError.path =
      some "a" ∧
    (validateDataCore cexSchema cexData).head?.map SchemaError.message =
      some (typeMessage JType.string) ∧
    typeMessage JType.string ≠ requiredMessage "x" ∧
    ("a" : String) ≠ dotted ["b"] := by
  refine ⟨?_, by decide, by decide, by decide, by decide⟩
  exact MissingRequired.nested
    (List.Mem.tail _ (List.Mem.head _))
    (by rfl)
    (MissingRequired.here (List.Mem.head _) (by rfl))

/-- Helper: substring containment survives appending on the right. -/
theorem strContains_append_left (s1 s2 sub : String)
    (h : strContains s1 sub) : strContains (s1 ++ s2) sub := by
  unfold strContains at *
  have hd : (s1 ++ s2).data = s1.data ++ s2.data := rfl
  rw [hd]
  exact h.trans (List.prefix_append s1.data s2.data).isInfix

/-- C5 (amended): `SchemaValidator.validate_file` raises
`DataLoadError` when the path does not exist and when the file content
is not valid JSON; when the path exists but is a directory, the
`IsADirectoryError` from `open()` propagates instead of
`DataLoadError`; schema-rule violations are returned as the error
list, never raised. -/
theorem validate_file_spec (sfs : Fs JSchema) (dfs : Fs Json)
    (filepath schema_name : String) :
    (fsLookup dfs filepath = none →
      SchemaValidator.validate_file sfs dfs filepath schema_name =
        .error (.dataLoadError ("File not found: " ++ filepath)
          (some filepath))) ∧
    (fsLookup dfs filepath = some (.file none) →
      SchemaValidator.validate_file sfs dfs filepath schema_name =
        .error (.dataLoadError ("Invalid JSON syntax: " ++ filepath)
          (some filepath))) ∧
    (fsLookup dfs filepath = some .dir →
      SchemaValidator.validate_file sfs dfs filepath schema_name =
        .error (.isADirectoryError filepath)) ∧
    (∀ data schema, fsLookup dfs filepath = some (.file (some data)) →
      SchemaValidator.get_schema sfs schema_name = .ok schema →
      SchemaValidator.validate_file sfs dfs filepath schema_name =
        .ok (validateDataCore schema data)) := by
  refine ⟨?_, ?_, ?_, ?_⟩
  · intro h
    unfold SchemaValidator.validate_file
    rw [h]
  · intro h
    unfold SchemaValidator.validate_file
    rw [h]
  · intro h
    unfold SchemaValidator.validate_file
    rw [h]
  · intro data schema h hs
    unfold SchemaValidator.validate_file
    rw [h]
    show SchemaValidator.validate_data sfs data schema_name = _
    unfold SchemaValidator.validate_data
    rw [hs]

/-- Witness for C5 at concrete file systems: each branch of the
amended claim, evaluated. -/
theorem validate_file_spec_witness :
    SchemaValidator.validate_file sampleSchemasFs sampleDataFs
      "missing.json" "config" =
      .error (.dataLoadError ("File not found: " ++ "missing.json")
        (some "missing.json")) ∧
    SchemaValidator.validate_file sampleSchemasFs sampleDataFs
      "bad.json" "config" =
      .error (.dataLoadError ("Invalid JSON syntax: " ++ "bad.json")
        (some "bad.json")) ∧
    SchemaValidator.validate_file sampleSchemasFs sampleDataFs
      "adir" "config" = .error (.isADirectoryError "adir") ∧
    SchemaValidator.validate_file sampleSchemasFs sampleDataFs
      "stage_1/config.json" "config" =
      .ok (validateDataCore sampleSchema sampleGoodData) :=
  ⟨(validate_file_spec sampleSchemasFs sampleDataFs "missing.json"
      "config").1 (by rfl),
   (validate_file_spec sampleSchemasFs sampleDataFs "bad.json"
      "config").2.1 (by rfl),
   (validate_file_spec sampleSchemasFs sampleDataFs "adir"
      "config").2.2.1 (by rfl),
   (validate_file_spec sampleSchemasFs sampleDataFs "stage_1/config.json"
      "config").2.2.2 sampleGoodData sampleSchema (by rfl) (by rfl)⟩

/-- Counterexample to C5 as stated: on a directory path,
`validate_file` raises `IsADirectoryError`, not `DataLoadError`. -/
theorem validate_file_dir_cex :
    SchemaValidator.validate_file sampleSchemasFs cexDirFs "d" "config" =
      .error (.isADirectoryError "d") ∧
    Except.raisesDataLoad
      (SchemaValidator.validate_file sampleSchemasFs cexDirFs "d" "config") =
      false :=
  ⟨rfl, rfl⟩

/-- C6 (spec-modelled): `load_json` returns the parsed content of a
well-formed JSON file; on a missing file it raises `DataLoadError`
whose message contains "not found"; on a directory it raises
`DataLoadError` whose message contains "not a file"; on malformed JSON
it raises `DataLoadError` whose message contains "json"; and these are
the only failure modes. -/
theorem load_json_spec (dfs : Fs Json) (path : String) :
    (∀ j, fsLookup dfs path = some (.file (some j)) →
      load_json dfs path = .ok j) ∧
    (fsLookup dfs path = none →
      ∃ m, load_json dfs path = .error (.dataLoadError m (some path)) ∧
        strContains m "not found") ∧
    (fsLookup dfs path = some .dir →
      ∃ m, load_json dfs path = .error (.dataLoadError m (some path)) ∧
        strContains m "not a file") ∧
    (fsLookup dfs path = some (.file none) →
      ∃ m, load_json dfs path = .error (.dataLoadError m (some path)) ∧
        strContains m "json") ∧
    (∀ e, load_json dfs path = .error e →
      ∃ m, e = .dataLoadError m (some path) ∧
        (strContains m "not found" ∨ strContains m "not a file" ∨
          strContains m "json")) := by
  refine ⟨?_, ?_, ?_, ?_, ?_⟩
  · intro j h
    unfold load_json
    rw [h]
  · intro h
    refine ⟨"File not found: " ++ path, by unfold load_json; rw [h], ?_⟩
    exact strContains_append_left _ _ _ (by decide)
  · intro h
    refine ⟨"Path is not a file: " ++ path, by unfold load_json; rw [h], ?_⟩
    exact strContains_append_left _ _ _ (by decide)
  · intro h
    refine ⟨"Invalid json in file: " ++ path, by unfold load_json; rw [h], ?_⟩
    exact strContains_append_left _ _ _ (by decide)
  · intro e he
    unfold load_json at he
    cases hf : fsLookup dfs path with
    | none =>
      rw [hf] at he
      cases he
      exact ⟨_, rfl, Or.inl (strContains_append_left _ _ _ (by decide))⟩
    | some entry =>
      cases entry with
      | dir =>
        rw [hf] at he
        cases he
        exact ⟨_, rfl,
          Or.inr (Or.inl (strContains_append_left _ _ _ (by decide)))⟩
      | file parsed =>
        cases parsed with
        | none =>
          rw [hf] at he
          cases he
          exact ⟨_, rfl,
            Or.inr (Or.inr (strContains_append_left _ _ _ (by decide)))⟩
        | some j =>
          rw [hf] at he
          exact Except.noConfusion he

/-- Witness for C6: each branch evaluated on a concrete file system. -/
theorem load_json_spec_witness :
    load_json sampleDataFs "stage_1/config.json" = .ok sampleGoodData ∧
    (∃ m, load_json sampleDataFs "missing.json" =
        .error (.dataLoadError m (some "missing.json")) ∧
      strContains m "not found") ∧
    (∃ m, load_json sampleDataFs "adir" =
        .error (.dataLoadError m (some "adir")) ∧
      strContains m "not a file") ∧
    (∃ m, load_json sampleDataFs "bad.json" =
        .error (.dataLoadError m (some "bad.json")) ∧
      strContains m "json") :=
  ⟨(load_json_spec sampleDataFs "stage_1/config.json").1 sampleGoodData
      (by rfl),
   (load_json_spec sampleDataFs "missing.json").2.1 (by rfl),
   (load_json_spec sampleDataFs "adir").2.2.1 (by rfl),
   (load_json_spec sampleDataFs "bad.json").2.2.2.1 (by rfl)⟩

/-- C7: `is_file_valid` returns `False` (rather than raising) when the
file is missing or its JSON is malformed, and returns `True` exactly
when `validate_file` on the same arguments returns an empty error
list. -/
theorem is_file_valid_spec (sfs : Fs JSchema) (dfs : Fs Json)
    (filepath schema_name : String) :
    (fsLookup dfs filepath = none →
      SchemaValidator.is_file_valid sfs dfs filepath schema_name =
        .ok false) ∧
    (fsLookup dfs filepath = some (.file none) →
      SchemaValidator.is_file_valid sfs dfs filepath schema_name =
        .ok false) ∧
    (SchemaValidator.is_file_valid sfs dfs filepath schema_name = .ok true ↔
      SchemaValidator.validate_file sfs dfs filepath schema_name =
        .ok []) := by
  refine ⟨?_, ?_, ?_⟩
  · intro h
    unfold SchemaValidator.is_file_valid SchemaValidator.validate_file
    rw [h]
  · intro h
    unfold SchemaValidator.is_file_valid SchemaValidator.validate_file
    rw [h]
  · unfold SchemaValidator.is_file_valid
    cases hv : SchemaValidator.validate_file sfs dfs filepath schema_name with
    | ok errors =>
      constructor
      · intro h
        have hemp : errors.isEmpty = true := by
          have := congrArg (fun x : Except PyError Bool =>
            match x with | .ok b => b | .error _ => false) h
          simpa using this
        rw [List.isEmpty_iff.mp hemp]
      · intro h
        have : errors = [] := by
          have := congrArg (fun x : Except PyError (List SchemaError) =>
            match x with | .ok l => l | .error _ => []) h
          simpa using this
        subst this
        rfl
    | error e =>
      cases e with
      | dataLoadError m fp => simp
      | isADirectoryError fp => simp

/-- Witness for C7 at concrete file systems. -/
theorem is_file_valid_spec_witness :
    SchemaValidator.is_file_valid sampleSchemasFs sampleDataFs
      "missing.json" "config" = .ok false ∧
    SchemaValidator.is_file_valid sampleSchemasFs sampleDataFs
      "bad.json" "config" = .ok false ∧
    (SchemaValidator.is_file_valid sampleSchemasFs sampleDataFs
        "stage_1/config.json" "config" = .ok true ↔
      SchemaValidator.validate_file sampleSchemasFs sampleDataFs
        "stage_1/config.json" "config" = .ok []) :=
  ⟨(is_file_valid_spec sampleSchemasFs sampleDataFs "missing.json"
      "config").1 (by rfl),
   (is_file_valid_spec sampleSchemasFs sampleDataFs "bad.json"
      "config").2.1 (by rfl),
   (is_file_valid_spec sampleSchemasFs sampleDataFs "stage_1/config.json"
      "config").2.2⟩
